import Mathlib

/-!
Shallow embedding of the user-management controllers
(`src/controllers/auth.controller.ts` and `src/controllers/user.ts`)
and proofs of the spec's claims about them.

The database collaborators (`db.objects.User`, `db.objects.Token`) and the
support helpers (`TokenHandler`, SMTP, cookie config) live outside the
controller sources; where a claim depends on them they are modelled from the
spec's external-interface contracts (each such definition carries a
doc comment starting with `Modelled from the spec:`).  Non-determinism of the
collaborators (token generation collisions, email failures) is injected as
explicit outcome lists, following the spec's own testing guidance (§9:
"a tagged result (`Issued(token) | Collision | FatalError`) returned per
attempt").
-/

namespace UserMgmt

/-- `SessionTokenType` from `types/auth`: the two token types the
controllers create and look up. -/
inductive SessionTokenType
  | Verification
  | Password
deriving DecidableEq, Repr

/-- Modelled from the spec: the `Role` enum of `@typings/auth` (not under
`src/`); §3 data model: "role (enum: Standard, Admin)". -/
inductive Role
  | Standard
  | Admin
deriving DecidableEq, Repr

/-- A user row as the controllers read and write it (§3 data model; fields
used by the handlers: `user_id`, `username`, `email`, `password`, `name`,
`role_id`, `verified`). -/
structure UserRow where
  user_id : Nat
  username : String
  email : String
  password : String
  name : String
  role_id : Nat
  verified : Bool
deriving DecidableEq, Repr

/-- A token row (§3 data model: token string, owning user id, type,
creation timestamp). -/
structure TokenRow where
  user_id : Nat
  token : String
  type : SessionTokenType
  created_at : Int
deriving DecidableEq, Repr

/-- The visible (committed) persistent state: the User store and the
Token store. -/
structure DBState where
  users : List UserRow
  tokens : List TokenRow
deriving DecidableEq, Repr

/-- A JavaScript value as it appears in an error's `code` field; strict
equality (`===`) across the two shapes is false. -/
inductive JsVal
  | str (s : String)
  | num (n : Int)
deriving DecidableEq, Repr

/-- The injected outcome of one `Token.create` attempt inside a
token-issuance loop: either the insert succeeded for the freshly generated
short token, or it rejected with a PG error carrying `code`. -/
inductive AttemptOutcome
  | ok (tok : String)
  | fail (code : JsVal)
deriving DecidableEq, Repr

/-- Result of running a token-issuance `while` loop against a finite prefix
of attempt outcomes: a token was issued, the loop threw on a non-retryable
error code, or the prefix was exhausted with the loop still running. -/
inductive IssueResult
  | issued (tok : String)
  | fatal (code : JsVal)
  | exhausted
deriving DecidableEq, Repr

/-- The PG error code carried by a uniqueness violation: node-postgres
reports error codes as strings, so a unique-constraint rejection carries the
string `"23505"`. -/
def pgUniqueViolation : JsVal := JsVal.str "23505"

/-- The retry condition of `AuthController.signup`'s issuance loop
(auth.controller.ts:62): `e.code === "23505"`. -/
def signupRetryCode : JsVal := JsVal.str "23505"

/-- The retry condition of `AuthController.sendPasswordResetEmail`'s
issuance loop (auth.controller.ts:332): `e.code === 23505` — the numeric
literal, compared with strict equality. -/
def recoveryRetryCode : JsVal := JsVal.num 23505

/-- The token-issuance `while` loop shared in shape by
`AuthController.signup` (lines 55-68) and
`AuthController.sendPasswordResetEmail` (lines 325-338): keep generating and
attempting `Token.create`; on a rejection whose `code` strictly equals
`retryCode`, `continue`; on any other rejection, `throw`; on success, stop
with the token. -/
def issueLoop (retryCode : JsVal) : List AttemptOutcome → IssueResult
  | [] => IssueResult.exhausted
  | AttemptOutcome.ok t :: _ => IssueResult.issued t
  | AttemptOutcome.fail c :: rest =>
      if c = retryCode then issueLoop retryCode rest else IssueResult.fatal c

/-- An HTTP response as the handlers produce it: `res.status(c).send(msg)`,
`res.redirect(target)`, or the cookie-plus-body pair of a freshly issued
session credential (`res.cookie(...)` followed by `res.send(\x7btoken\x7d)`). -/
inductive Resp
  | status (code : Nat) (msg : String)
  | redirectTo (target : String)
  | tokenIssued (tok : String)
deriving DecidableEq, Repr

/-- The generic error body `errorMessages.generic` (its concrete text lives
in `messages/errors.messages.js`, outside `src/`; only its identity matters
to the claims). -/
def genericMessage : String := "GENERIC_ERROR"

/-- Modelled from the spec: `bcrypt.hash(password, 10)` is an external
collaborator (§6 Password Hasher, `hash(plaintext) -> digest`); only that a
digest is stored matters to the claims. -/
def hashPassword (plaintext : String) : String := "bcrypt$" ++ plaintext

/-- Observable events of one `signup` run, in order: the pg client calls,
the store inserts, the email dispatch, and the moments a response is sent
and the connection is released. -/
inductive Ev
  | beginTx
  | insertUser
  | insertToken (tok : String)
  | emailSent
  | commitTx
  | rollback
  | release
  | respond (code : Nat)
deriving DecidableEq, Repr

/-- Outcome of the email dispatch (`smtpService.sendEmail`, an external
collaborator, §6): resolves or rejects. -/
inductive EmailOutcome
  | ok
  | fail
deriving DecidableEq, Repr

/-- The body of `POST /api/auth/signup`; a missing field is `none`
(JavaScript `undefined`). -/
structure SignupInput where
  username : Option String
  email : Option String
  password : Option String
  name : Option String
deriving DecidableEq, Repr

/-- Result of a `signup` run: the committed store state visible outside the
transaction, the event trace, and the response (`none` when the injected
attempt prefix was exhausted with the issuance loop still running — at that
point no response has been produced). -/
structure RunResult where
  db : DBState
  trace : List Ev
  resp : Option Resp
deriving DecidableEq, Repr

/-- Fresh `user_id` assigned by `User.create` (§6: `create(...) -> row`):
one more than the largest id in the store. -/
def nextUserId (st : DBState) : Nat :=
  (st.users.foldr (fun u acc => max u.user_id acc) 0) + 1

/-- `AuthController.signup` (auth.controller.ts:32-89).  Control flow of the
source: validate the body (400 before any transaction); `BEGIN`; insert the
user row; run the issuance loop (retry code `"23505"`, the string); dispatch
the verification email; `COMMIT`; respond 204.  Any `throw` after `BEGIN`
is caught (log, respond 500) and then the `finally` block rolls the open
transaction back and releases the client — so the committed state is the
initial one.  Uncommitted work is never visible in `db`. -/
def signup (st : DBState) (inp : SignupInput) (attempts : List AttemptOutcome)
    (emailOut : EmailOutcome) (now : Int) : RunResult :=
  if inp.username = none ∨ inp.email = none ∨ inp.password = none ∨ inp.name = none then
    { db := st, trace := [Ev.respond 400, Ev.release],
      resp := some (Resp.status 400 "Body must include username, email, password, and name") }
  else
    let uid := nextUserId st
    match issueLoop signupRetryCode attempts with
    | IssueResult.exhausted =>
        { db := st, trace := [Ev.beginTx, Ev.insertUser], resp := none }
    | IssueResult.fatal _ =>
        { db := st,
          trace := [Ev.beginTx, Ev.insertUser, Ev.respond 500, Ev.rollback, Ev.release],
          resp := some (Resp.status 500 genericMessage) }
    | IssueResult.issued t =>
        match emailOut with
        | EmailOutcome.fail =>
            { db := st,
              trace := [Ev.beginTx, Ev.insertUser, Ev.insertToken t,
                        Ev.respond 500, Ev.rollback, Ev.release],
              resp := some (Resp.status 500 genericMessage) }
        | EmailOutcome.ok =>
            let newUser : UserRow :=
              { user_id := uid,
                username := inp.username.getD "",
                email := inp.email.getD "",
                password := hashPassword (inp.password.getD ""),
                name := inp.name.getD "",
                role_id := 1,
                verified := false }
            { db := { users := st.users ++ [newUser],
                      tokens := st.tokens ++
                        [{ user_id := uid, token := t,
                           type := SessionTokenType.Verification, created_at := now }] },
              trace := [Ev.beginTx, Ev.insertUser, Ev.insertToken t, Ev.emailSent,
                        Ev.commitTx, Ev.respond 204, Ev.release],
              resp := some (Resp.status 204 "") }

/-- Whether, in a trace, a `rollback` occurs before the first error
response (`respond 500`). -/
def rollbackBeforeError (tr : List Ev) : Bool :=
  match tr.findIdx? (· = Ev.rollback), tr.findIdx? (· = Ev.respond 500) with
  | some i, some j => decide (i < j)
  | _, _ => false

/-- Modelled from the spec: `Token.findTokens(["token", "type"], [v, ty])`
(§6 Token Store, filter by fields; §3: "lookups use the token string as
primary key"). -/
def findTokens (st : DBState) (v : String) (ty : SessionTokenType) : List TokenRow :=
  st.tokens.filter (fun r => r.token = v ∧ r.type = ty)

/-- Modelled from the spec: `User.findUsers(["user_id"], [uid])` (§6 User
Store, filter by fields). -/
def findUsersById (st : DBState) (uid : Nat) : List UserRow :=
  st.users.filter (fun u => u.user_id = uid)

/-- Modelled from the spec: `User.findUsers(["email"], [em])` (§6 User
Store, filter by fields). -/
def findUsersByEmail (st : DBState) (em : String) : List UserRow :=
  st.users.filter (fun u => u.email = em)

/-- Modelled from the spec: `User.setAttributes(["verified"], [true], uid)`
(§6 User Store, `setAttributes(fields, values, userId) -> ack`). -/
def setVerified (st : DBState) (uid : Nat) : DBState :=
  { st with users := st.users.map (fun u => if u.user_id = uid then { u with verified := true } else u) }

/-- Modelled from the spec: `User.setAttributes(["password"], [digest], uid)`
(§6 User Store). -/
def setPassword (st : DBState) (uid : Nat) (digest : String) : DBState :=
  { st with users := st.users.map (fun u => if u.user_id = uid then { u with password := digest } else u) }

/-- Modelled from the spec: `Token.deleteToken(v)` (§6 Token Store,
`deleteToken(token) -> ack`; the token string is the key). -/
def deleteTokenRow (st : DBState) (v : String) : DBState :=
  { st with tokens := st.tokens.filter (fun r => ¬ r.token = v) }

/-- Modelled from the spec: the Session Credential Encoder's
`encode(user) -> credential string` (§4.3): deterministic in the identity
fields; the credential embeds user id, username and role.  Implemented by
`tokenHandler.generateUserAuthToken`, outside `src/`. -/
def generateUserAuthToken (u : UserRow) : String :=
  "signed(" ++ toString u.user_id ++ "," ++ u.username ++ "," ++ toString u.role_id ++ ")"

/-- `AuthController.verify` (auth.controller.ts:162-195), `GET
api/auth/verify/:token`: find a Verification token by value; absent →
redirect `/login`; owner missing → 500; otherwise set the owner verified,
delete the token, redirect `/login`. -/
def verify (st : DBState) (tokenParam : String) : DBState × Resp :=
  match findTokens st tokenParam SessionTokenType.Verification with
  | [] => (st, Resp.redirectTo "/login")
  | vt :: _ =>
    match findUsersById st vt.user_id with
    | [] => (st, Resp.status 500 genericMessage)
    | u :: _ =>
      let st1 := setVerified st u.user_id
      let st2 := deleteTokenRow st1 vt.token
      (st2, Resp.redirectTo "/login")

/-- Modelled from the spec: the password-reset TTL (§4.2: "a fixed TTL
(policy constant, e.g. 1 hour — exact value is a configuration)").  One hour
in milliseconds. -/
def passwordTokenTTL : Int := 3600000

/-- Modelled from the spec: `tokenHandler.isPasswordTokenExpired(token)`
lives in the token-handler support module, outside `src/`; §4.2: a "pure
function of `now - token.createdAt` vs a fixed TTL"; §8: "at exactly TTL it
must be rejected (boundary inclusive on the reject side)". -/
def isPasswordTokenExpired (now : Int) (t : TokenRow) : Bool :=
  passwordTokenTTL ≤ now - t.created_at

/-- `AuthController.verifyRecovery` (auth.controller.ts:231-255), `GET
api/auth/recovery/verify/:token`: find a Password token by value; absent →
400 generic; expired → 400 generic; otherwise redirect to
`/recover/<token>`.  The handler performs no store writes. -/
def verifyRecovery (st : DBState) (tokenParam : String) (now : Int) : DBState × Resp :=
  match findTokens st tokenParam SessionTokenType.Password with
  | [] => (st, Resp.status 400 genericMessage)
  | t :: _ =>
    if isPasswordTokenExpired now t then (st, Resp.status 400 genericMessage)
    else (st, Resp.redirectTo ("/recover/" ++ tokenParam))

/-- `AuthController.processRecovery` (auth.controller.ts:260-307), `POST
api/auth/recovery/:token`: missing password → 400; token absent or expired
→ 400 generic; owner missing → 500; otherwise hash the new password, set it,
delete the token, and answer with a fresh session credential (cookie +
body). -/
def processRecovery (st : DBState) (tokenParam : String) (passwordField : Option String)
    (now : Int) : DBState × Resp :=
  match passwordField with
  | none => (st, Resp.status 400 "Body must include password")
  | some pw =>
    match findTokens st tokenParam SessionTokenType.Password with
    | [] => (st, Resp.status 400 genericMessage)
    | t :: _ =>
      if isPasswordTokenExpired now t then (st, Resp.status 400 genericMessage)
      else
        match findUsersById st t.user_id with
        | [] => (st, Resp.status 500 genericMessage)
        | u :: _ =>
          let st1 := setPassword st t.user_id (hashPassword pw)
          let st2 := deleteTokenRow st1 tokenParam
          (st2, Resp.tokenIssued (generateUserAuthToken u))

/-- Result of a `recovery` run: final store state and the response (`none`
when the injected attempt prefix was exhausted with the issuance loop of
`sendPasswordResetEmail` still running). -/
structure RecoveryResult where
  db : DBState
  resp : Option Resp
deriving DecidableEq, Repr

/-- `AuthController.recovery` (auth.controller.ts:201-226) together with the
`sendPasswordResetEmail` helper it calls (lines 322-351): missing email →
400; no user with that email → redirect `/recover/sent`; otherwise run the
issuance loop (retry code the NUMBER `23505`, standalone — each successful
`Token.create` commits immediately, outside any transaction), dispatch the
reset email, redirect `/recover/sent`.  A `throw` from the loop or from the
email dispatch is caught at the handler and answered 500; a token already
persisted stays persisted. -/
def recovery (st : DBState) (emailField : Option String)
    (attempts : List AttemptOutcome) (emailOut : EmailOutcome) (now : Int) : RecoveryResult :=
  match emailField with
  | none => { db := st, resp := some (Resp.status 400 "Body must include email") }
  | some em =>
    match findUsersByEmail st em with
    | [] => { db := st, resp := some (Resp.redirectTo "/recover/sent") }
    | u :: _ =>
      match issueLoop recoveryRetryCode attempts with
      | IssueResult.exhausted => { db := st, resp := none }
      | IssueResult.fatal _ => { db := st, resp := some (Resp.status 500 genericMessage) }
      | IssueResult.issued t =>
        let st1 : DBState :=
          { st with tokens := st.tokens ++
              [{ user_id := u.user_id, token := t,
                 type := SessionTokenType.Password, created_at := now }] }
        match emailOut with
        | EmailOutcome.fail => { db := st1, resp := some (Resp.status 500 genericMessage) }
        | EmailOutcome.ok => { db := st1, resp := some (Resp.redirectTo "/recover/sent") }

/-- The profile attribute names `UserController.updateUser` copies into
`newAttributes` (user.ts:37). -/
def profileKeys : List String := ["username", "email", "name", "password"]

/-- The `newAttributes` bag built from the request body (user.ts:36-44):
the body's entries whose key is one of the profile keys, in body order.
The body is the string-keyed JSON object of the PATCH request, modelled as
an association list. -/
def profileAttrs (body : List (String × String)) : List (String × String) :=
  body.filter (fun kv => kv.1 ∈ profileKeys)

/-- The `newAdminAttributes` bag (user.ts:41-43): every `roleId` entry of
the body, stored under the column name `role_id`. -/
def adminAttrs (body : List (String × String)) : List (String × String) :=
  (body.filter (fun kv => kv.1 = "roleId")).map (fun kv => ("role_id", kv.2))

/-- The password-hashing step (user.ts:46-48): when `newAttributes.password`
is defined, replace it by its bcrypt digest. -/
def hashPasswordAttr (attrs : List (String × String)) : List (String × String) :=
  if (attrs.lookup "password").isSome then
    attrs.map (fun kv => if kv.1 = "password" then (kv.1, hashPassword kv.2) else kv)
  else attrs

/-- Result of an `updateUser` run: the `User.setAttributes` persistence
calls made, in order (target id paired with the attribute bag), the
response, and the session-credential cookie set, if any. -/
structure UpdateResult where
  calls : List (Nat × List (String × String))
  resp : Resp
  cookieSet : Option String
deriving DecidableEq, Repr

/-- Modelled from the spec: the Session Credential Encoder's
`encodeWithUpdatedAttributes(existingClaims, changedFields)` (§4.3),
implemented by `tokenHandler.generateUpdatedUserAuthToken` outside `src/`:
re-signs the caller's credential with the new username. -/
def generateUpdatedUserAuthToken (callerId : Nat) (newUsername : String) : String :=
  "resigned(" ++ toString callerId ++ "," ++ newUsername ++ ")"

/-- `UserController.updateUser` (user.ts:30-84), `PATCH /api/user/:id`:
split the body into the profile bag and the admin bag; hash the password if
present; persist the profile bag only when the caller is the target
(`req.userId === req.params.id`) and it is non-empty; persist the admin bag
only when the caller's role is Admin and it is non-empty; then, if
`newAttributes.username` is truthy (present and non-empty), issue a
refreshed credential as cookie and body, else respond 204. -/
def updateUser (callerId : Nat) (callerRole : Role) (targetId : Nat)
    (body : List (String × String)) : UpdateResult :=
  let isClientUser := callerId = targetId
  let newAttributes := hashPasswordAttr (profileAttrs body)
  let newAdminAttributes := adminAttrs body
  let calls :=
    (if isClientUser ∧ newAttributes ≠ [] then [(targetId, newAttributes)] else []) ++
    (if callerRole = Role.Admin ∧ newAdminAttributes ≠ [] then [(targetId, newAdminAttributes)] else [])
  match newAttributes.lookup "username" with
  | some v =>
    if v ≠ "" then
      let newToken := generateUpdatedUserAuthToken callerId v
      { calls := calls, resp := Resp.tokenIssued newToken, cookieSet := some newToken }
    else
      { calls := calls, resp := Resp.status 204 "", cookieSet := none }
  | none => { calls := calls, resp := Resp.status 204 "", cookieSet := none }

/-- Modelled from the spec: `User.deleteUser(userId) -> ack` (§6 User
Store): removes the rows with that id; acknowledges whether or not any row
existed. -/
def storeDeleteUser (st : DBState) (uid : Nat) : DBState :=
  { st with users := st.users.filter (fun u => ¬ u.user_id = uid) }

/-- `UserController.deleteUser` (user.ts:136-147), `DELETE /api/user/:id`:
call the store delete for the path id and respond 204.  The handler reads
neither `req.userId` nor `req.role`, so the caller's identity and role are
parameters it ignores. -/
def deleteUser (st : DBState) (callerId : Nat) (callerRole : Role) (targetId : Nat) :
    DBState × Resp :=
  let _ := callerId
  let _ := callerRole
  (storeDeleteUser st targetId, Resp.status 204 "")

/-! ## Concrete fixtures used to instantiate the theorems -/

/-- A sample unverified user row. -/
def sampleUser : UserRow :=
  { user_id := 1, username := "al", email := "a@x.com",
    password := "h", name := "Al", role_id := 1, verified := false }

/-- A sample Verification token owned by `sampleUser`. -/
def sampleVerifyToken : TokenRow :=
  { user_id := 1, token := "tk", type := SessionTokenType.Verification, created_at := 0 }

/-- A sample Password-Reset token owned by `sampleUser`, created at time 0. -/
def sampleResetToken : TokenRow :=
  { user_id := 1, token := "rk", type := SessionTokenType.Password, created_at := 0 }

/-- A store holding `sampleUser` and its Verification token. -/
def sampleVerifyState : DBState :=
  { users := [sampleUser], tokens := [sampleVerifyToken] }

/-- A store holding `sampleUser` and its Password-Reset token. -/
def sampleResetState : DBState :=
  { users := [sampleUser], tokens := [sampleResetToken] }

/-! ## Helper lemmas -/

/-- When no Verification token matches, `verify` redirects to `/login` and
leaves the state unchanged. -/
theorem verify_absent (st : DBState) (v : String)
    (h : findTokens st v SessionTokenType.Verification = []) :
    verify st v = (st, Resp.redirectTo "/login") := by
  unfold verify
  rw [h]

/-- The head of a `findTokens` result matches the lookup key and type. -/
theorem findTokens_head_eq (st : DBState) (v : String) (ty : SessionTokenType)
    (r : TokenRow) (rs : List TokenRow) (h : findTokens st v ty = r :: rs) :
    r.token = v ∧ r.type = ty := by
  have hmem : r ∈ findTokens st v ty := by
    rw [h]; exact List.mem_cons_self r rs
  unfold findTokens at hmem
  have := (List.mem_filter.mp hmem).2
  simpa using this

/-- The head of a `findUsersById` result carries the looked-up id. -/
theorem findUsersById_head_eq (st : DBState) (uid : Nat)
    (u : UserRow) (us : List UserRow) (h : findUsersById st uid = u :: us) :
    u.user_id = uid := by
  have hmem : u ∈ findUsersById st uid := by
    rw [h]; exact List.mem_cons_self u us
  unfold findUsersById at hmem
  have := (List.mem_filter.mp hmem).2
  simpa using this

/-! ## C2 -/

/-- C2: the claim says both token-issuance sites retry on a
uniqueness-violation persistence failure and propagate any other failure.
The signup loop does (its retry test is `e.code === "23505"`, the string
node-postgres delivers, and any other code throws); but the
password-recovery loop's test is `e.code === 23505`, the number, which a
strict-equality comparison against the string `"23505"` never satisfies —
so at an actual PG uniqueness violation the recovery loop throws instead of
retrying. -/
theorem C2_recovery_collision_not_retried :
    issueLoop signupRetryCode
      [AttemptOutcome.fail pgUniqueViolation, AttemptOutcome.ok "t2"] =
      IssueResult.issued "t2" ∧
    issueLoop signupRetryCode [AttemptOutcome.fail (JsVal.str "42P01")] =
      IssueResult.fatal (JsVal.str "42P01") ∧
    issueLoop recoveryRetryCode
      [AttemptOutcome.fail pgUniqueViolation, AttemptOutcome.ok "t2"] =
      IssueResult.fatal pgUniqueViolation := by
  refine ⟨rfl, rfl, ?_⟩
  simp [issueLoop, recoveryRetryCode, pgUniqueViolation]

/-! ## C3 -/

/-- C3 counterexample: the claim says every issuance retry loop is bounded
by a retry cap and fails loudly past it.  After twenty consecutive
uniqueness-violation rejections — past any cap of the order the spec
suggests — the signup loop has neither issued a token nor failed: it is
still running. -/
theorem C3_counterexample :
    issueLoop signupRetryCode
      (List.replicate 20 (AttemptOutcome.fail pgUniqueViolation)) =
      IssueResult.exhausted := by
  decide

/-- After any number of consecutive retry-code failures, a successful
attempt issues its token. -/
theorem issueLoop_replicate_ok (retryCode : JsVal) (n : Nat) (t : String) :
    issueLoop retryCode
      (List.replicate n (AttemptOutcome.fail retryCode) ++ [AttemptOutcome.ok t]) =
      IssueResult.issued t := by
  induction n with
  | zero => rfl
  | succ m ih => simpa [List.replicate_succ, issueLoop] using ih

/-- C3 amended: the issuance loops enforce no retry cap.  The loop is still
running after a finite prefix of attempts exactly when every attempt in the
prefix failed with the loop's retry code — so under unbounded collision
injection it never terminates, while `n` collisions followed by a success
issue the token on attempt `n + 1`, for every `n`. -/
theorem C3_issue_loop_unbounded (retryCode : JsVal) (attempts : List AttemptOutcome)
    (n : Nat) (t : String) :
    (issueLoop retryCode attempts = IssueResult.exhausted ↔
      ∀ a ∈ attempts, a = AttemptOutcome.fail retryCode) ∧
    issueLoop retryCode
      (List.replicate n (AttemptOutcome.fail retryCode) ++ [AttemptOutcome.ok t]) =
      IssueResult.issued t := by
  refine ⟨?_, issueLoop_replicate_ok retryCode n t⟩
  induction attempts with
  | nil => simp [issueLoop]
  | cons a rest ih =>
    cases a with
    | ok t2 => simp [issueLoop]
    | fail c =>
      by_cases hc : c = retryCode
      · subst hc
        simp [issueLoop, ih]
      · simp [issueLoop, hc]

/-! ## C1 -/

/-- C1 counterexample: the claim says the transaction is rolled back
*before* the error response is sent.  In the source the 500 response is sent
in the `catch` block and the `ROLLBACK` only runs afterwards in the
`finally` block.  Concretely: a signup whose email dispatch throws after the
user row and token row were inserted produces the trace
`[BEGIN, insert user, insert token, respond 500, ROLLBACK, release]` — the
response precedes the rollback (while the stores do end up unchanged). -/
theorem C1_counterexample :
    (signup { users := [], tokens := [] }
        { username := some "al", email := some "a@x.com",
          password := some "p", name := some "Al" }
        [AttemptOutcome.ok "tk"] EmailOutcome.fail 0).trace =
      [Ev.beginTx, Ev.insertUser, Ev.insertToken "tk",
       Ev.respond 500, Ev.rollback, Ev.release] ∧
    rollbackBeforeError
      (signup { users := [], tokens := [] }
        { username := some "al", email := some "a@x.com",
          password := some "p", name := some "Al" }
        [AttemptOutcome.ok "tk"] EmailOutcome.fail 0).trace = false ∧
    (signup { users := [], tokens := [] }
        { username := some "al", email := some "a@x.com",
          password := some "p", name := some "Al" }
        [AttemptOutcome.ok "tk"] EmailOutcome.fail 0).resp =
      some (Resp.status 500 genericMessage) := by
  refine ⟨?_, ?_, ?_⟩ <;> decide

/-- C1 amended: signup is all-or-nothing, but the order is response first,
rollback second.  For every signup request whose body is complete and in
which a step after the user-row insert fails (token issuance hits a
non-retryable error, or the email dispatch throws after a token was
issued), the handler answers 500 and the `finally` block then rolls the
transaction back, so the committed User and Token stores are exactly the
initial ones — zero new rows — and the trace contains a rollback, strictly
after the error response. -/
theorem C1_signup_all_or_nothing (st : DBState) (inp : SignupInput)
    (attempts : List AttemptOutcome) (emailOut : EmailOutcome) (now : Int)
    (hu : inp.username ≠ none) (he : inp.email ≠ none)
    (hp : inp.password ≠ none) (hn : inp.name ≠ none)
    (hfail : (∃ c, issueLoop signupRetryCode attempts = IssueResult.fatal c) ∨
      ((∃ t, issueLoop signupRetryCode attempts = IssueResult.issued t) ∧
        emailOut = EmailOutcome.fail)) :
    (signup st inp attempts emailOut now).db = st ∧
    (signup st inp attempts emailOut now).resp = some (Resp.status 500 genericMessage) ∧
    Ev.rollback ∈ (signup st inp attempts emailOut now).trace ∧
    rollbackBeforeError (signup st inp attempts emailOut now).trace = false := by
  have hcond : ¬ (inp.username = none ∨ inp.email = none ∨
      inp.password = none ∨ inp.name = none) := by
    simp [hu, he, hp, hn]
  rcases hfail with ⟨c, hc⟩ | ⟨⟨t, ht⟩, hemail⟩
  · simp [signup, hcond, hc, rollbackBeforeError]
  · subst hemail
    simp [signup, hcond, ht, rollbackBeforeError]

/-- C1 witness: the amended theorem applied to a concrete signup whose
token issuance hits a non-retryable error. -/
theorem C1_signup_all_or_nothing_witness :
    (signup { users := [], tokens := [] }
        { username := some "bo", email := some "b@x.com",
          password := some "q", name := some "Bo" }
        [AttemptOutcome.fail (JsVal.str "42P01")] EmailOutcome.ok 7).db =
      { users := [], tokens := [] } ∧
    (signup { users := [], tokens := [] }
        { username := some "bo", email := some "b@x.com",
          password := some "q", name := some "Bo" }
        [AttemptOutcome.fail (JsVal.str "42P01")] EmailOutcome.ok 7).resp =
      some (Resp.status 500 genericMessage) ∧
    Ev.rollback ∈ (signup { users := [], tokens := [] }
        { username := some "bo", email := some "b@x.com",
          password := some "q", name := some "Bo" }
        [AttemptOutcome.fail (JsVal.str "42P01")] EmailOutcome.ok 7).trace ∧
    rollbackBeforeError (signup { users := [], tokens := [] }
        { username := some "bo", email := some "b@x.com",
          password := some "q", name := some "Bo" }
        [AttemptOutcome.fail (JsVal.str "42P01")] EmailOutcome.ok 7).trace = false :=
  C1_signup_all_or_nothing _ _ _ _ _ (by decide) (by decide) (by decide) (by decide)
    (Or.inl ⟨JsVal.str "42P01", by decide⟩)

/-! ## C4 -/

/-- C4: first redemption of an issued Verification token succeeds — the
owning user's `verified` flag is set, the token row is deleted, and the
handler redirects to `/login`; replaying the same value afterwards takes
the absent-token branch: the same redirect with no state change. -/
theorem C4_verification_single_use (st : DBState) (v : String)
    (r : TokenRow) (rs : List TokenRow) (u : UserRow) (us : List UserRow)
    (hr : findTokens st v SessionTokenType.Verification = r :: rs)
    (hfu : findUsersById st r.user_id = u :: us) :
    (verify st v).2 = Resp.redirectTo "/login" ∧
    (∀ w ∈ (verify st v).1.users, w.user_id = r.user_id → w.verified = true) ∧
    findTokens (verify st v).1 v SessionTokenType.Verification = [] ∧
    verify ((verify st v).1) v = ((verify st v).1, Resp.redirectTo "/login") := by
  obtain ⟨hrtok, hrty⟩ := findTokens_head_eq st v SessionTokenType.Verification r rs hr
  have huid : u.user_id = r.user_id := findUsersById_head_eq st r.user_id u us hfu
  have hstep : verify st v =
      (deleteTokenRow (setVerified st u.user_id) r.token, Resp.redirectTo "/login") := by
    simp only [verify, hr, hfu]
  have husers : (verify st v).1.users =
      st.users.map (fun w => if w.user_id = u.user_id then { w with verified := true } else w) := by
    rw [hstep]
    rfl
  have htokens : (verify st v).1.tokens =
      st.tokens.filter (fun x => ¬ x.token = r.token) := by
    rw [hstep]
    rfl
  have hempty : findTokens (verify st v).1 v SessionTokenType.Verification = [] := by
    unfold findTokens
    rw [htokens]
    rw [List.filter_eq_nil_iff]
    intro a ha
    have ha2 := (List.mem_filter.mp ha).2
    simp only [decide_not, Bool.not_eq_true', decide_eq_false_iff_not] at ha2
    simp only [decide_eq_true_eq, not_and]
    intro hav
    exact absurd (hav.trans hrtok.symm) ha2
  refine ⟨by rw [hstep], ?_, hempty, ?_⟩
  · intro w hw hwid
    rw [husers] at hw
    obtain ⟨w0, _, hw0⟩ := List.mem_map.mp hw
    by_cases h0 : w0.user_id = u.user_id
    · rw [if_pos h0] at hw0
      rw [← hw0]
    · rw [if_neg h0] at hw0
      subst hw0
      exact absurd (hwid.trans huid.symm) h0
  · exact verify_absent _ v hempty

/-- C4 witness: the theorem instantiated on a store holding one unverified
user and one Verification token for it. -/
theorem C4_verification_single_use_witness :
    (verify sampleVerifyState "tk").2 = Resp.redirectTo "/login" ∧
    (∀ w ∈ (verify sampleVerifyState "tk").1.users,
      w.user_id = sampleVerifyToken.user_id → w.verified = true) ∧
    findTokens (verify sampleVerifyState "tk").1 "tk" SessionTokenType.Verification = [] ∧
    verify ((verify sampleVerifyState "tk").1) "tk" =
      ((verify sampleVerifyState "tk").1, Resp.redirectTo "/login") :=
  C4_verification_single_use sampleVerifyState "tk" sampleVerifyToken [] sampleUser []
    (by decide) (by decide)

/-! ## C5 -/

/-- C5: a Password-Reset token that is present (and, for the process step,
whose owner exists and a new password was supplied) redeems successfully
precisely when `now - createdAt < TTL`: the verify step redirects to the
password-entry page and the process step answers with a fresh session
credential.  At age exactly TTL both steps reject with the 400
generic-failure response. -/
theorem C5_reset_ttl_boundary (st : DBState) (v : String) (pw : String) (now : Int)
    (r : TokenRow) (rs : List TokenRow) (u : UserRow) (us : List UserRow)
    (hr : findTokens st v SessionTokenType.Password = r :: rs)
    (hfu : findUsersById st r.user_id = u :: us) :
    ((verifyRecovery st v now).2 = Resp.redirectTo ("/recover/" ++ v) ↔
      now - r.created_at < passwordTokenTTL) ∧
    ((processRecovery st v (some pw) now).2 = Resp.tokenIssued (generateUserAuthToken u) ↔
      now - r.created_at < passwordTokenTTL) ∧
    (now - r.created_at = passwordTokenTTL →
      (verifyRecovery st v now).2 = Resp.status 400 genericMessage ∧
      (processRecovery st v (some pw) now).2 = Resp.status 400 genericMessage) := by
  by_cases hexp : passwordTokenTTL ≤ now - r.created_at
  · have hb : isPasswordTokenExpired now r = true := by
      simp [isPasswordTokenExpired, hexp]
    refine ⟨?_, ?_, ?_⟩
    · simp only [verifyRecovery, hr, hb, if_true]
      constructor
      · intro h
        exact absurd h (by simp)
      · intro h
        omega
    · simp only [processRecovery, hr, hb, if_true]
      constructor
      · intro h
        exact absurd h (by simp)
      · intro h
        omega
    · intro _
      constructor
      · simp only [verifyRecovery, hr, hb, if_true]
      · simp only [processRecovery, hr, hb, if_true]
  · have hb : isPasswordTokenExpired now r = false := by
      simp [isPasswordTokenExpired]
      omega
    have hlt : now - r.created_at < passwordTokenTTL := by omega
    refine ⟨?_, ?_, ?_⟩
    · simp only [verifyRecovery, hr, hb, if_false, Bool.false_eq_true]
      simp [hlt]
    · simp only [processRecovery, hr, hb, if_false, Bool.false_eq_true, hfu]
      simp [hlt]
    · intro habs
      omega

/-- C5 witness: the theorem instantiated on a store with one reset token
created at time 0, probed at an unexpired instant. -/
theorem C5_reset_ttl_boundary_witness :
    ((verifyRecovery sampleResetState "rk" 10).2 =
        Resp.redirectTo ("/recover/" ++ "rk") ↔
      (10 : Int) - sampleResetToken.created_at < passwordTokenTTL) ∧
    ((processRecovery sampleResetState "rk" (some "npw") 10).2 =
        Resp.tokenIssued (generateUserAuthToken sampleUser) ↔
      (10 : Int) - sampleResetToken.created_at < passwordTokenTTL) ∧
    ((10 : Int) - sampleResetToken.created_at = passwordTokenTTL →
      (verifyRecovery sampleResetState "rk" 10).2 = Resp.status 400 genericMessage ∧
      (processRecovery sampleResetState "rk" (some "npw") 10).2 =
        Resp.status 400 genericMessage) :=
  C5_reset_ttl_boundary sampleResetState "rk" "npw" 10 sampleResetToken [] sampleUser []
    (by decide) (by decide)

/-! ## C6 -/

/-- C6: a recovery request for an email matching no user and one for an
email matching an existing user (whose token issuance succeeds and whose
reset email dispatches) produce the same response at the redirect layer:
both redirect to the generic `/recover/sent` page, revealing nothing about
the email's existence. -/
theorem C6_enumeration_resistance (st : DBState) (e1 e2 : String)
    (t : String) (attempts : List AttemptOutcome) (now : Int)
    (h1 : findUsersByEmail st e1 = [])
    (h2 : findUsersByEmail st e2 ≠ [])
    (hiss : issueLoop recoveryRetryCode attempts = IssueResult.issued t) :
    (recovery st (some e1) attempts EmailOutcome.ok now).resp =
      some (Resp.redirectTo "/recover/sent") ∧
    (recovery st (some e2) attempts EmailOutcome.ok now).resp =
      some (Resp.redirectTo "/recover/sent") ∧
    (∀ attempts2 emailOut2 target,
      (recovery st (some e2) attempts2 emailOut2 now).resp =
          some (Resp.redirectTo target) →
      target = "/recover/sent") := by
  obtain ⟨u, us, h2'⟩ := List.exists_cons_of_ne_nil h2
  refine ⟨by simp [recovery, h1], by simp [recovery, h2', hiss], ?_⟩
  intro attempts2 emailOut2 target hresp
  simp only [recovery, h2'] at hresp
  cases hloop : issueLoop recoveryRetryCode attempts2 with
  | exhausted => rw [hloop] at hresp; simp at hresp
  | fatal c => rw [hloop] at hresp; simp at hresp
  | issued t2 =>
    rw [hloop] at hresp
    cases emailOut2 with
    | fail => simp at hresp
    | ok => simpa using hresp.symm

/-- C6 witness: the theorem instantiated on a store holding one user, with
an unknown and a known email address. -/
theorem C6_enumeration_resistance_witness :
    (recovery sampleResetState (some "nobody@x.com")
        [AttemptOutcome.ok "fresh"] EmailOutcome.ok 0).resp =
      some (Resp.redirectTo "/recover/sent") ∧
    (recovery sampleResetState (some "a@x.com")
        [AttemptOutcome.ok "fresh"] EmailOutcome.ok 0).resp =
      some (Resp.redirectTo "/recover/sent") :=
  ⟨(C6_enumeration_resistance sampleResetState "nobody@x.com" "a@x.com" "fresh"
      [AttemptOutcome.ok "fresh"] 0 (by decide) (by decide) (by decide)).1,
    (C6_enumeration_resistance sampleResetState "nobody@x.com" "a@x.com" "fresh"
      [AttemptOutcome.ok "fresh"] 0 (by decide) (by decide) (by decide)).2.1⟩

/-! ## C7 -/

/-- C7: the recovery verify step is read-only — for every store, token
value and probe time the handler returns the store unchanged; and when a
Password-Reset token is present and unexpired it redirects to the
password-entry page keyed by the token value. -/
theorem C7_verify_recovery_read_only (st : DBState) (v : String) (now : Int) :
    (verifyRecovery st v now).1 = st ∧
    (∀ r rs, findTokens st v SessionTokenType.Password = r :: rs →
      isPasswordTokenExpired now r = false →
      (verifyRecovery st v now).2 = Resp.redirectTo ("/recover/" ++ v)) := by
  constructor
  · unfold verifyRecovery
    cases h : findTokens st v SessionTokenType.Password with
    | nil => rfl
    | cons r rs =>
      by_cases hb : isPasswordTokenExpired now r
      · simp [hb]
      · simp [hb]
  · intro r rs hr hb
    simp only [verifyRecovery, hr, hb, if_false, Bool.false_eq_true]

/-- C7 witness: the theorem instantiated on a store with one fresh reset
token. -/
theorem C7_verify_recovery_read_only_witness :
    (verifyRecovery sampleResetState "rk" 10).1 = sampleResetState ∧
    (verifyRecovery sampleResetState "rk" 10).2 = Resp.redirectTo ("/recover/" ++ "rk") := by
  refine ⟨(C7_verify_recovery_read_only sampleResetState "rk" 10).1, ?_⟩
  exact (C7_verify_recovery_read_only sampleResetState "rk" 10).2
    sampleResetToken [] (by decide) (by decide)

/-! ## C8 -/

/-- The persistence calls of `updateUser` do not depend on which response
branch is taken: they are the profile call (when the caller is the target
and the bag is non-empty) followed by the admin call (when the caller is an
Admin and the bag is non-empty). -/
theorem updateUser_calls (c : Nat) (role : Role) (t : Nat) (body : List (String × String)) :
    (updateUser c role t body).calls =
      (if c = t ∧ hashPasswordAttr (profileAttrs body) ≠ [] then
        [(t, hashPasswordAttr (profileAttrs body))] else []) ++
      (if role = Role.Admin ∧ adminAttrs body ≠ [] then [(t, adminAttrs body)] else []) := by
  unfold updateUser
  cases h : (hashPasswordAttr (profileAttrs body)).lookup "username" with
  | none => simp only [h]
  | some v =>
    simp only [h]
    by_cases hv : v = "" <;> simp [hv]

/-- Every key of `hashPasswordAttr attrs` is a key of `attrs`. -/
theorem hashPasswordAttr_keys (attrs : List (String × String))
    (kv : String × String) (h : kv ∈ hashPasswordAttr attrs) :
    ∃ kv0 ∈ attrs, kv.1 = kv0.1 := by
  unfold hashPasswordAttr at h
  by_cases hp : (attrs.lookup "password").isSome
  · rw [if_pos hp] at h
    obtain ⟨kv0, hkv0, heq⟩ := List.mem_map.mp h
    refine ⟨kv0, hkv0, ?_⟩
    by_cases hk : kv0.1 = "password"
    · rw [if_pos hk] at heq
      rw [← heq]
    · rw [if_neg hk] at heq
      rw [← heq]
  · rw [if_neg hp] at h
    exact ⟨kv, h, rfl⟩

/-- C8: `updateUser` makes at most two persistence calls, both aimed at the
path id; the profile bag (username, email, name, password) is persisted
only when the caller is the target user, the role bag only when the caller
holds the Admin role, the two gates are independent (both passing yields
the two calls in order), and every persisted attribute key lies in the two
allowed sets. -/
theorem C8_update_gating (c : Nat) (role : Role) (t : Nat)
    (body : List (String × String)) :
    (updateUser c role t body).calls.length ≤ 2 ∧
    (∀ call ∈ (updateUser c role t body).calls, call.1 = t) ∧
    (∀ call ∈ (updateUser c role t body).calls, ∀ kv ∈ call.2,
      kv.1 ∈ ["username", "email", "name", "password", "role_id"]) ∧
    (¬ c = t → ∀ call ∈ (updateUser c role t body).calls, call.2 = adminAttrs body) ∧
    (¬ role = Role.Admin → ∀ call ∈ (updateUser c role t body).calls,
      call.2 = hashPasswordAttr (profileAttrs body)) ∧
    (c = t → hashPasswordAttr (profileAttrs body) ≠ [] →
      (t, hashPasswordAttr (profileAttrs body)) ∈ (updateUser c role t body).calls) ∧
    (role = Role.Admin → adminAttrs body ≠ [] →
      (t, adminAttrs body) ∈ (updateUser c role t body).calls) ∧
    (c = t → role = Role.Admin → hashPasswordAttr (profileAttrs body) ≠ [] →
      adminAttrs body ≠ [] →
      (updateUser c role t body).calls =
        [(t, hashPasswordAttr (profileAttrs body)), (t, adminAttrs body)]) := by
  rw [updateUser_calls]
  set na := hashPasswordAttr (profileAttrs body) with hna
  set naa := adminAttrs body with hnaa
  have hkeys1 : ∀ kv ∈ na, kv.1 ∈ ["username", "email", "name", "password", "role_id"] := by
    intro kv hkv
    obtain ⟨kv0, hkv0, hk⟩ := hashPasswordAttr_keys (profileAttrs body) kv (hna ▸ hkv)
    have : kv0.1 ∈ profileKeys := by
      have := (List.mem_filter.mp hkv0).2
      simpa [profileAttrs] using this
    rw [hk]
    simp only [profileKeys, List.mem_cons, List.mem_singleton] at this
    simp only [List.mem_cons, List.mem_singleton]
    tauto
  have hkeys2 : ∀ kv ∈ naa, kv.1 ∈ ["username", "email", "name", "password", "role_id"] := by
    intro kv hkv
    rw [hnaa] at hkv
    obtain ⟨kv0, _, heq⟩ := List.mem_map.mp hkv
    rw [← heq]
    simp
  by_cases h1 : c = t ∧ na ≠ [] <;> by_cases h2 : role = Role.Admin ∧ naa ≠ [] <;>
    simp only [h1, h2, if_pos, if_neg, if_true, if_false] <;> simp_all <;> tauto

/-- C8 witness: the theorem instantiated on a self-update by an Admin
caller carrying one profile field, one role field, and one ignored field. -/
theorem C8_update_gating_witness :
    (updateUser 1 Role.Admin 1 [("name", "Al"), ("roleId", "2"), ("junk", "x")]).calls.length ≤ 2 ∧
    (updateUser 1 Role.Admin 1 [("name", "Al"), ("roleId", "2"), ("junk", "x")]).calls =
      [(1, hashPasswordAttr (profileAttrs [("name", "Al"), ("roleId", "2"), ("junk", "x")])),
       (1, adminAttrs [("name", "Al"), ("roleId", "2"), ("junk", "x")])] :=
  ⟨(C8_update_gating 1 Role.Admin 1 [("name", "Al"), ("roleId", "2"), ("junk", "x")]).1,
    (C8_update_gating 1 Role.Admin 1
        [("name", "Al"), ("roleId", "2"), ("junk", "x")]).2.2.2.2.2.2.2
      rfl rfl (by decide) (by decide)⟩

/-! ## C9 -/

/-- Rewriting the values stored under the `password` key leaves the
`username` lookup unchanged: the map never touches a key. -/
theorem lookup_username_map_hash (attrs : List (String × String)) :
    (attrs.map (fun kv => if kv.1 = "password" then (kv.1, hashPassword kv.2) else kv)).lookup
        "username" =
      attrs.lookup "username" := by
  induction attrs with
  | nil => rfl
  | cons kv rest ih =>
    obtain ⟨k, val⟩ := kv
    by_cases hk : k = "password"
    · subst hk
      have hbeq : (("username" : String) == "password") = false := by decide
      simp [List.lookup, hbeq, ih]
    · simp only [List.map_cons, if_neg hk]
      cases hbeq : (("username" : String) == k) with
      | true => simp [List.lookup, hbeq]
      | false => simp [List.lookup, hbeq, ih]

/-- Hashing the password attribute leaves the `username` lookup
unchanged. -/
theorem lookup_username_hashPasswordAttr (attrs : List (String × String)) :
    (hashPasswordAttr attrs).lookup "username" = attrs.lookup "username" := by
  unfold hashPasswordAttr
  by_cases hp : (attrs.lookup "password").isSome
  · rw [if_pos hp]
    exact lookup_username_map_hash attrs
  · rw [if_neg hp]

/-- Filtering the body down to the profile keys leaves the `username`
lookup unchanged: `username` is itself a profile key, and `lookup` only
inspects keys. -/
theorem lookup_username_profileAttrs (body : List (String × String)) :
    (profileAttrs body).lookup "username" = body.lookup "username" := by
  unfold profileAttrs
  induction body with
  | nil => rfl
  | cons kv rest ih =>
    obtain ⟨k, val⟩ := kv
    by_cases hk : k ∈ profileKeys
    · rw [List.filter_cons, if_pos (by simpa using hk)]
      cases hbeq : (("username" : String) == k) with
      | true => simp [List.lookup, hbeq]
      | false => simp [List.lookup, hbeq, ih]
    · rw [List.filter_cons, if_neg (by simpa using hk)]
      have hu : ¬ k = "username" := by
        intro habs
        exact hk (by simp [habs, profileKeys])
      have hbeq : (("username" : String) == k) = false := by
        rw [beq_eq_false_iff_ne]
        exact fun habs => hu habs.symm
      simp [List.lookup, hbeq, ih]

/-- C9 counterexample: the claim says a refreshed credential is issued iff
the username *changed*.  A request by caller 1 against target 2 with body
`\x7b username: "bob" \x7d` persists nothing at all (caller is not the
target, no admin attribute present) — so no username changed — yet the
handler issues a refreshed credential as cookie and body instead of the
empty 204 acknowledgment. -/
theorem C9_counterexample :
    (updateUser 1 Role.Standard 2 [("username", "bob")]).calls = [] ∧
    (updateUser 1 Role.Standard 2 [("username", "bob")]).resp ≠ Resp.status 204 "" ∧
    (updateUser 1 Role.Standard 2 [("username", "bob")]).cookieSet.isSome = true := by
  refine ⟨?_, ?_, ?_⟩ <;> decide

/-- C9 amended: `updateUser` issues a refreshed session credential (set as
cookie and returned in the body) precisely when the request body's first
`username` entry is present and non-empty — regardless of whether that
value differs from the stored username or was persisted at all; in every
other case it responds with the empty 204 acknowledgment and sets no
cookie. -/
theorem C9_refresh_iff_username_in_body (c : Nat) (role : Role) (t : Nat)
    (body : List (String × String)) :
    (∀ v, body.lookup "username" = some v → ¬ v = "" →
      (updateUser c role t body).resp =
        Resp.tokenIssued (generateUpdatedUserAuthToken c v) ∧
      (updateUser c role t body).cookieSet =
        some (generateUpdatedUserAuthToken c v)) ∧
    ((body.lookup "username" = none ∨ body.lookup "username" = some "") →
      (updateUser c role t body).resp = Resp.status 204 "" ∧
      (updateUser c role t body).cookieSet = none) := by
  have hlk : (hashPasswordAttr (profileAttrs body)).lookup "username" =
      body.lookup "username" := by
    rw [lookup_username_hashPasswordAttr, lookup_username_profileAttrs]
  constructor
  · intro v hv hne
    have h2 : (hashPasswordAttr (profileAttrs body)).lookup "username" = some v :=
      hlk.trans hv
    constructor <;> · unfold updateUser; simp [h2, hne]
  · intro hcase
    rcases hcase with hn | hs
    · have h2 : (hashPasswordAttr (profileAttrs body)).lookup "username" = none :=
        hlk.trans hn
      constructor <;> · unfold updateUser; simp [h2]
    · have h2 : (hashPasswordAttr (profileAttrs body)).lookup "username" = some "" :=
        hlk.trans hs
      constructor <;> · unfold updateUser; simp [h2]

/-- C9 witness: the amended theorem applied to a caller updating their own
username. -/
theorem C9_refresh_iff_username_in_body_witness :
    (updateUser 1 Role.Standard 1 [("username", "bob")]).resp =
      Resp.tokenIssued (generateUpdatedUserAuthToken 1 "bob") ∧
    (updateUser 1 Role.Standard 1 [("username", "bob")]).cookieSet =
      some (generateUpdatedUserAuthToken 1 "bob") :=
  (C9_refresh_iff_username_in_body 1 Role.Standard 1 [("username", "bob")]).1
    "bob" (by decide) (by decide)

/-! ## C10 -/

/-- C10: `deleteUser` removes every row with the path id, responds 204, and
its entire result is independent of the caller's identity and role; the 204
is produced for every store, whether or not a user with the target id
exists, and rows with other ids are untouched. -/
theorem C10_delete_unguarded (st : DBState) (c1 c2 : Nat) (r1 r2 : Role) (t : Nat) :
    deleteUser st c1 r1 t = deleteUser st c2 r2 t ∧
    (deleteUser st c1 r1 t).2 = Resp.status 204 "" ∧
    (∀ u ∈ (deleteUser st c1 r1 t).1.users, ¬ u.user_id = t) ∧
    (∀ u ∈ st.users, ¬ u.user_id = t → u ∈ (deleteUser st c1 r1 t).1.users) ∧
    (deleteUser st c1 r1 t).1.tokens = st.tokens := by
  refine ⟨rfl, rfl, ?_, ?_, rfl⟩
  · intro u hu
    have := (List.mem_filter.mp hu).2
    simpa using this
  · intro u hu hne
    exact List.mem_filter.mpr ⟨hu, by simpa using hne⟩

/-- C10 witness: deleting user 1 gives the same result whether requested by
a Standard caller 9 or an Admin caller 2, and answers 204 both on the store
that holds user 1 and on the empty store where no such user exists. -/
theorem C10_delete_unguarded_witness :
    deleteUser sampleVerifyState 9 Role.Standard 1 =
      deleteUser sampleVerifyState 2 Role.Admin 1 ∧
    (deleteUser sampleVerifyState 9 Role.Standard 1).2 = Resp.status 204 "" ∧
    (deleteUser { users := [], tokens := [] } 9 Role.Standard 1).2 = Resp.status 204 "" :=
  ⟨(C10_delete_unguarded sampleVerifyState 9 2 Role.Standard Role.Admin 1).1,
    (C10_delete_unguarded sampleVerifyState 9 2 Role.Standard Role.Admin 1).2.1,
    (C10_delete_unguarded { users := [], tokens := [] } 9 2 Role.Standard Role.Admin 1).2.1⟩

end UserMgmt
